import Mathlib

/-!
Verification of `cmd/example_client/main.go` of the relaydns repository.

The Go program is a demo client: it serves a local HTTP page, creates a
libp2p overlay host, constructs a relaydns client that advertises the
backend, and waits for a termination signal.  The straight-line control
flow of `runClient` is embedded as a trace of events; the pure helper
`addrToTarget` is embedded directly.  Components of the relaydns library
that are not part of the included source (the address preference
selector, the advertise-session close semantics, the publisher loop's
reaction to context cancellation) are modelled from the specification;
each such definition is marked `Modelled from the spec:`.

Strings are Lean `String`s; Go `time.Duration` values are nanosecond
counts (`Nat`), exactly as in Go's representation.
-/

namespace Relaydns

/-- Go `time.Millisecond` in nanoseconds. -/
def nsPerMillisecond : Nat := 1000000

/-- Go `time.Second` in nanoseconds. -/
def nsPerSecond : Nat := 1000000000

/-- Embedding of `addrToTarget` (main.go lines 134-139):
`if len(listen) > 0 && listen[0] == ':' { return "127.0.0.1" + listen }; return listen`.
The Go condition "non-empty and first byte is a colon" is expressed as
`listen.data.head? = some c` for the colon character (the colon is
ASCII, so first byte and first character coincide). -/
def addrToTarget (listen : String) : String :=
  if listen.data.head? = some ':' then "127.0.0.1" ++ listen else listen

/-- Spec-side predicate (for claim C2 only, following the spec's words
"concrete, non-wildcard host:port"): a host:port string has a wildcard
host when the host part is empty (the string begins with a colon), is
the IPv4 wildcard `0.0.0.0`, or is the IPv6 wildcard `[::]`. -/
def wildcardHostChars (l : List Char) : Bool :=
  decide (l.take 1 = [':']) ||
  decide (l.take 8 = ['0', '.', '0', '.', '0', '.', '0', ':']) ||
  decide (l.take 5 = ['[', ':', ':', ']', ':'])

/-- A host:port string with a wildcard (or empty) host part. -/
def hasWildcardHost (s : String) : Bool := wildcardHostChars s.data

/-- The command-line flags of the program, with their types (main.go
lines 24-37).  Durations are nanoseconds. -/
structure Flags where
  serverURL : String
  bootstraps : List String
  relay : Bool
  backendHTTP : String
  protocol : String
  topic : String
  advertiseEvery : Nat
  name : String
  dns : String
  preferQUIC : Bool
  preferLocal : Bool
  httpTimeout : Nat
  deriving DecidableEq

/-- The default flag values registered in `init` (main.go lines 39-53). -/
def defaultFlags : Flags where
  serverURL := "http://localhost:8080"
  bootstraps := []
  relay := true
  backendHTTP := ":8081"
  protocol := "/relaydns/http/1.0"
  topic := "relaydns.backends"
  advertiseEvery := 3 * nsPerSecond
  name := "demo-http"
  dns := "demo-http.example"
  preferQUIC := true
  preferLocal := true
  httpTimeout := 3 * nsPerSecond

/-- The `relaydns.ClientConfig` literal built in `runClient`
(main.go lines 98-111), field for field. -/
structure ClientConfig where
  Protocol : String
  Topic : String
  AdvertiseEvery : Nat
  Name : String
  DNS : String
  TargetTCP : String
  ServerURL : String
  Bootstraps : List String
  HTTPTimeout : Nat
  PreferQUIC : Bool
  PreferLocal : Bool
  deriving DecidableEq

/-- The config value `runClient` passes to `relaydns.NewClient`
(main.go lines 98-111): every field is the corresponding flag, except
`TargetTCP`, which is `addrToTarget(flagBackendHTTP)`. -/
def clientConfigOf (f : Flags) : ClientConfig where
  Protocol := f.protocol
  Topic := f.topic
  AdvertiseEvery := f.advertiseEvery
  Name := f.name
  DNS := f.dns
  TargetTCP := addrToTarget f.backendHTTP
  ServerURL := f.serverURL
  Bootstraps := f.bootstraps
  HTTPTimeout := f.httpTimeout
  PreferQUIC := f.preferQUIC
  PreferLocal := f.preferLocal

/-- Observable steps of `runClient`'s main control flow (main.go lines
61-132).  The `receivesRootCtx` argument of a call event records whether
the source passes the root context `ctx` to that call: `http.ListenAndServe`
(line 86) takes only an address and a handler, so the HTTP serving loop is
started with `false`; `relaydns.MakeHost` (line 93) and
`relaydns.NewClient` (line 98) both receive `ctx`.  The deferred
`client.Close()` (line 115) and `cancel()` (line 63) appear in the trace
at the point Go runs them: after `runClient` returns, in LIFO order. -/
inductive Event where
  | httpServe (addr : String) (receivesRootCtx : Bool)
  | makeHost (receivesRootCtx : Bool) (port : Nat) (relay : Bool)
  | newClient (receivesRootCtx : Bool) (cfg : ClientConfig)
  | startAdvertising
  | waitSignal
  | sleepNs (n : Nat)
  | closeClient
  | cancelRootCtx
  deriving DecidableEq

/-- Outcomes of the external calls `runClient` makes: `some msg` is a
failure with error text `msg`, `none` is success.  `httpServeErr` is the
result of `http.ListenAndServe` in the backend goroutine (`none` standing
for "still serving"). -/
structure Env where
  makeHostErr : Option String
  newClientErr : Option String
  httpServeErr : Option String
  deriving DecidableEq

/-- The fault-free environment: host creation and client construction
succeed and the backend keeps serving. -/
def envOK : Env := ⟨none, none, none⟩

/-- Embedding of `runClient` (main.go lines 61-132) as the linearised
trace of its main control flow plus its returned error.  The backend
goroutine (lines 66-90) is spawned first and modelled separately by
`httpGoroutine`; here only its start appears, recording the listen
address and that the serving call is not given the root context.  On
`MakeHost` failure the function returns `make host: ` + the cause before
`NewClient` is reached and before any advertising, and only the deferred
`cancel()` runs (no `Close` was deferred yet); on `NewClient` failure it
returns `new client: ` + the cause, likewise without advertising.  On
success the client is constructed — which, per the spec's orchestrator
design, schedules the advertisement loop before returning
(`startAdvertising`) — and the function blocks on the signal channel,
sleeps 200ms after a signal, returns nil, and then the deferred
`client.Close()` and `cancel()` run in that order. -/
def runClient (f : Flags) (e : Env) : List Event × Option String :=
  match e.makeHostErr with
  | some msg =>
      ([Event.httpServe f.backendHTTP false,
        Event.makeHost true 0 f.relay,
        Event.cancelRootCtx],
       some ("make host: " ++ msg))
  | none =>
    match e.newClientErr with
    | some msg =>
        ([Event.httpServe f.backendHTTP false,
          Event.makeHost true 0 f.relay,
          Event.newClient true (clientConfigOf f),
          Event.cancelRootCtx],
         some ("new client: " ++ msg))
    | none =>
        ([Event.httpServe f.backendHTTP false,
          Event.makeHost true 0 f.relay,
          Event.newClient true (clientConfigOf f),
          Event.startAdvertising,
          Event.waitSignal,
          Event.sleepNs (200 * nsPerMillisecond),
          Event.closeClient,
          Event.cancelRootCtx],
         none)

/-- Embedding of `main` (main.go lines 55-59): `rootCmd.Execute()` runs
`runClient`; a non-nil error reaches `log.Fatal()`, which exits the
process with status 1; otherwise the process exits 0. -/
def mainExitCode (f : Flags) (e : Env) : Nat :=
  match (runClient f e).2 with
  | some _ => 1
  | none => 0

/-- Steps of the HTTP backend goroutine (main.go lines 66-90). -/
inductive HTTPGoroutineStep where
  | serveForever
  | logServeError (msg : String)
  | cancelRootCtx
  deriving DecidableEq

/-- Embedding of the backend goroutine's body around
`http.ListenAndServe` (main.go lines 86-89): while serving it never
terminates; if the serve call returns an error it logs the error and
calls `cancel()` on the root context, and the goroutine ends — it does
not exit the process and cannot make `runClient` return. -/
def httpGoroutine (serveResult : Option String) : List HTTPGoroutineStep :=
  match serveResult with
  | none => [HTTPGoroutineStep.serveForever]
  | some msg => [HTTPGoroutineStep.logServeError msg, HTTPGoroutineStep.cancelRootCtx]

/-- Whether the trace's HTTP serving call was given the root context. -/
def httpServeReceivesCtx (t : List Event) : Bool :=
  t.any fun ev =>
    match ev with
    | Event.httpServe _ b => b
    | _ => false

/-- Whether the trace's client construction was given the root context
(the advertisement loop lives inside the client and inherits it). -/
def clientReceivesCtx (t : List Event) : Bool :=
  t.any fun ev =>
    match ev with
    | Event.newClient b _ => b
    | _ => false

/-- Modelled from the spec: the Advertisement Publisher loop (relaydns
library, not in the included source) "publishes ... until cancellation"
and "only cancellation stops the loop", so it runs exactly while the
context it inherited is not cancelled. -/
def advertLoopRunning (ctxCancelled : Bool) : Bool := !ctxCancelled

/-- Modelled from the spec: `PreferenceConfig` = {preferQUIC, preferLocal},
pure configuration (relaydns library, not in the included source). -/
structure PreferenceConfig where
  preferQUIC : Bool
  preferLocal : Bool
  deriving DecidableEq

/-- Modelled from the spec: a candidate address tagged along the two
independent classification axes of the Address Preference Selector —
transport class (low-latency datagram, i.e. QUIC, vs reliable stream)
and locality class (loopback/link-local vs globally routable). -/
structure CandidateAddr where
  isQUIC : Bool
  isLocal : Bool
  addr : String
  deriving DecidableEq

/-- Modelled from the spec: sort key of the Address Preference Selector.
Transport preference is the primary key and locality the secondary key
("transport preference takes priority over locality preference when both
are enabled"); a disabled axis contributes no distinction.  Lower key
sorts first. -/
def addrKey (cfg : PreferenceConfig) (a : CandidateAddr) : Nat :=
  (if cfg.preferQUIC && a.isQUIC then 0 else 1) * 2 +
  (if cfg.preferLocal && a.isLocal then 0 else 1)

/-- Modelled from the spec: the Address Preference Selector (relaydns
library, not in the included source) returns the candidate addresses
ordered most-preferred first, ties broken by original discovery order —
a stable sort on `addrKey`. -/
def selectAddrs (cfg : PreferenceConfig) (addrs : List CandidateAddr) : List CandidateAddr :=
  List.insertionSort (fun a b => addrKey cfg a ≤ addrKey cfg b) addrs

/-- Modelled from the spec: the per-client `AdvertiseSession` state
(relaydns library, not in the included source), reduced to what `Close`
touches — whether the session is already closed, and how many times its
resources have been released. -/
structure AdvertiseSession where
  closed : Bool
  releaseCount : Nat
  deriving DecidableEq

/-- Modelled from the spec: `Close` on an `AdvertiseSession` (relaydns
library, not in the included source): the first call signals the loop to
stop and releases topic/overlay resources; `Close` is idempotent, so on
an already-closed session it releases nothing and reports no error. -/
def closeSession (s : AdvertiseSession) : AdvertiseSession × Option String :=
  if s.closed then (s, none)
  else ({ closed := true, releaseCount := s.releaseCount + 1 }, none)

/-! ### Helper lemmas -/

theorem strDataAppend (a b : String) : (a ++ b).data = a.data ++ b.data := by
  cases a
  cases b
  rfl

theorem addrToTarget_of_colon {s : String} (h : s.data.head? = some ':') :
    addrToTarget s = "127.0.0.1" ++ s := by
  simp [addrToTarget, h]

theorem addrToTarget_of_not_colon {s : String} (h : s.data.head? ≠ some ':') :
    addrToTarget s = s := by
  simp [addrToTarget, h]

theorem hasWildcardHost_concrete_host (s : String) :
    hasWildcardHost ("127.0.0.1" ++ s) = false := by
  unfold hasWildcardHost wildcardHostChars
  rw [strDataAppend]
  rfl

/-! ### Claims -/

/-- C1: a listen address beginning with a colon (form `:port`) is
normalized by `addrToTarget` to `127.0.0.1` prepended to it (so `:port`
becomes `127.0.0.1:port`); an address already containing a host (first
character not a colon) passes through unchanged; and the result is
exactly what `runClient` supplies as the client's `TargetTCP`. -/
theorem c1_addrToTarget_normalization (f : Flags) (s : String) :
    (s.data.head? = some ':' → addrToTarget s = "127.0.0.1" ++ s) ∧
    (∀ c, s.data.head? = some c → c ≠ ':' → addrToTarget s = s) ∧
    (clientConfigOf f).TargetTCP = addrToTarget f.backendHTTP := by
  refine ⟨fun h => addrToTarget_of_colon h, fun c hc hne => ?_, rfl⟩
  have h : s.data.head? ≠ some ':' := by
    rw [hc]
    simp [hne]
  exact addrToTarget_of_not_colon h

/-- Witness for C1 at the concrete inputs `:8081` and `0.0.0.0:9000`. -/
theorem c1_witness :
    addrToTarget ":8081" = "127.0.0.1" ++ ":8081" ∧
    addrToTarget "0.0.0.0:9000" = "0.0.0.0:9000" ∧
    (clientConfigOf defaultFlags).TargetTCP = addrToTarget defaultFlags.backendHTTP :=
  ⟨(c1_addrToTarget_normalization defaultFlags ":8081").1 (by decide),
   (c1_addrToTarget_normalization defaultFlags "0.0.0.0:9000").2.1 '0' (by decide) (by decide),
   (c1_addrToTarget_normalization defaultFlags ":8081").2.2⟩

/-- C2 counterexample: the claim "the normalization step never yields a
wildcard host" fails at the listen address `0.0.0.0:9000`, which
`addrToTarget` passes through unchanged even though its host part is the
IPv4 wildcard `0.0.0.0`. -/
theorem c2_counterexample :
    addrToTarget "0.0.0.0:9000" = "0.0.0.0:9000" ∧
    hasWildcardHost (addrToTarget "0.0.0.0:9000") = true := by
  constructor
  · exact addrToTarget_of_not_colon (by decide)
  · decide

/-- C2 amended: a listen address of form `:port` is normalized to
`127.0.0.1:port`, which has a concrete non-wildcard host; and a listen
address whose host part is already concrete (non-wildcard) passes
through unchanged and stays non-wildcard.  A wildcard-host listen
address such as `0.0.0.0:9000` is NOT made concrete. -/
theorem c2_amended_nonwildcard (s : String) :
    (s.data.head? = some ':' →
      addrToTarget s = "127.0.0.1" ++ s ∧ hasWildcardHost (addrToTarget s) = false) ∧
    (hasWildcardHost s = false →
      addrToTarget s = s ∧ hasWildcardHost (addrToTarget s) = false) := by
  constructor
  · intro h
    refine ⟨addrToTarget_of_colon h, ?_⟩
    rw [addrToTarget_of_colon h]
    exact hasWildcardHost_concrete_host s
  · intro h
    have hne : s.data.head? ≠ some ':' := by
      intro hc
      cases hd : s.data with
      | nil => rw [hd] at hc; simp at hc
      | cons c t =>
        rw [hd] at hc
        simp at hc
        rw [hc] at hd
        have : hasWildcardHost s = true := by
          unfold hasWildcardHost wildcardHostChars
          rw [hd]
          rfl
        rw [this] at h
        cases h
    rw [addrToTarget_of_not_colon hne]
    exact ⟨rfl, h⟩

/-- Witness for C2 amended, at `:8081` (wildcard-free after
normalization) and at the concrete-host address `192.168.0.2:9000`. -/
theorem c2_amended_witness :
    (addrToTarget ":8081" = "127.0.0.1" ++ ":8081" ∧
      hasWildcardHost (addrToTarget ":8081") = false) ∧
    (addrToTarget "192.168.0.2:9000" = "192.168.0.2:9000" ∧
      hasWildcardHost (addrToTarget "192.168.0.2:9000") = false) :=
  ⟨(c2_amended_nonwildcard ":8081").1 (by decide),
   (c2_amended_nonwildcard "192.168.0.2:9000").2 (by decide)⟩

/-- C8: `addrToTarget` is total and validation-free: the empty string
maps to itself, a string whose first character is a colon maps to
`127.0.0.1` prepended to it, any other string (including non-address
strings such as `foo`) maps to itself, and the result flows unchanged
into the client configuration's target address. -/
theorem c8_addrToTarget_total (f : Flags) (s : String) :
    (s.data = [] → addrToTarget s = s) ∧
    (∀ c rest, s.data = c :: rest → c = ':' → addrToTarget s = "127.0.0.1" ++ s) ∧
    (∀ c rest, s.data = c :: rest → c ≠ ':' → addrToTarget s = s) ∧
    addrToTarget "" = "" ∧
    addrToTarget "foo" = "foo" ∧
    (clientConfigOf f).TargetTCP = addrToTarget f.backendHTTP := by
  refine ⟨?_, ?_, ?_, by decide, by decide, rfl⟩
  · intro h
    apply addrToTarget_of_not_colon
    rw [h]
    simp
  · intro c rest h hc
    apply addrToTarget_of_colon
    rw [h, hc]
    rfl
  · intro c rest h hc
    apply addrToTarget_of_not_colon
    rw [h]
    simp [hc]

/-- Witness for C8 at the concrete inputs `""`, `":"` and `"foo"`. -/
theorem c8_witness :
    addrToTarget "" = "" ∧
    addrToTarget ":" = "127.0.0.1" ++ ":" ∧
    addrToTarget "foo" = "foo" :=
  ⟨(c8_addrToTarget_total defaultFlags "").1 (by decide),
   (c8_addrToTarget_total defaultFlags ":").2.1 ':' [] (by decide) rfl,
   (c8_addrToTarget_total defaultFlags "foo").2.2.1 'f' ['o', 'o'] (by decide) (by decide)⟩

/-- C3: on a host-creation failure `runClient` returns synchronously
with the single error `make host: ` + cause, and on a client-construction
failure with `new client: ` + cause; in either case `main`'s fatal
handler exits the process with status 1, and no advertising is started
(the trace contains neither `startAdvertising` nor the steady-state
signal wait, and no client was ever deferred for closing). -/
theorem c3_construction_failures (f : Flags) (e : Env) :
    (∀ msg, e.makeHostErr = some msg →
      (runClient f e).2 = some ("make host: " ++ msg) ∧
      mainExitCode f e = 1 ∧
      Event.startAdvertising ∉ (runClient f e).1 ∧
      Event.waitSignal ∉ (runClient f e).1 ∧
      Event.closeClient ∉ (runClient f e).1) ∧
    (∀ msg, e.makeHostErr = none → e.newClientErr = some msg →
      (runClient f e).2 = some ("new client: " ++ msg) ∧
      mainExitCode f e = 1 ∧
      Event.startAdvertising ∉ (runClient f e).1 ∧
      Event.waitSignal ∉ (runClient f e).1 ∧
      Event.closeClient ∉ (runClient f e).1) := by
  obtain ⟨mh, nc, hs⟩ := e
  constructor
  · intro msg h
    simp only at h
    subst h
    refine ⟨rfl, rfl, ?_, ?_, ?_⟩ <;> simp [runClient]
  · intro msg h1 h2
    simp only at h1 h2
    subst h1
    subst h2
    refine ⟨rfl, rfl, ?_, ?_, ?_⟩ <;> simp [runClient]

/-- Witness for C3: a concrete host-creation failure and a concrete
client-construction failure. -/
theorem c3_witness :
    (runClient defaultFlags ⟨some "boom", none, none⟩).2 = some ("make host: " ++ "boom") ∧
    mainExitCode defaultFlags ⟨some "boom", none, none⟩ = 1 ∧
    (runClient defaultFlags ⟨none, some "bad", none⟩).2 = some ("new client: " ++ "bad") ∧
    mainExitCode defaultFlags ⟨none, some "bad", none⟩ = 1 :=
  ⟨((c3_construction_failures defaultFlags ⟨some "boom", none, none⟩).1 "boom" rfl).1,
   ((c3_construction_failures defaultFlags ⟨some "boom", none, none⟩).1 "boom" rfl).2.1,
   ((c3_construction_failures defaultFlags ⟨none, some "bad", none⟩).2 "bad" rfl rfl).1,
   ((c3_construction_failures defaultFlags ⟨none, some "bad", none⟩).2 "bad" rfl rfl).2.1⟩

/-- C4 counterexample: the claim says the root cancellation signal
propagates to BOTH the HTTP backend's serving loop and the advertisement
loop.  In the source, `http.ListenAndServe` (main.go line 86) is called
without the root context, so the HTTP serving loop never observes
cancellation: in the fault-free run under default flags the conjunction
is false. -/
theorem c4_counterexample :
    ¬ (httpServeReceivesCtx (runClient defaultFlags envOK).1 = true ∧
       clientReceivesCtx (runClient defaultFlags envOK).1 = true) := by
  decide

/-- C4 amended: the root context propagates to the advertisement loop
(the client is constructed with it), but not to the HTTP serving loop,
which is started without the context and never observes cancellation;
after the termination signal a fixed 200ms grace sleep runs before
process exit, and a cancelled context stops the advertisement loop. -/
theorem c4_amended_propagation (f : Flags) (e : Env)
    (h1 : e.makeHostErr = none) (h2 : e.newClientErr = none) :
    clientReceivesCtx (runClient f e).1 = true ∧
    httpServeReceivesCtx (runClient f e).1 = false ∧
    Event.sleepNs (200 * nsPerMillisecond) ∈ (runClient f e).1 ∧
    advertLoopRunning true = false := by
  obtain ⟨mh, nc, hs⟩ := e
  simp only at h1 h2
  subst h1
  subst h2
  refine ⟨?_, ?_, ?_, rfl⟩ <;> simp [runClient, clientReceivesCtx, httpServeReceivesCtx]

/-- Witness for C4 amended, in the fault-free run under default flags. -/
theorem c4_amended_witness :
    clientReceivesCtx (runClient defaultFlags envOK).1 = true ∧
    httpServeReceivesCtx (runClient defaultFlags envOK).1 = false ∧
    Event.sleepNs (200 * nsPerMillisecond) ∈ (runClient defaultFlags envOK).1 ∧
    advertLoopRunning true = false :=
  c4_amended_propagation defaultFlags envOK rfl rfl

/-- C5: in every run that reaches the Advertising state, the trace of
`runClient` ends with: the signal wait, then the fixed 200ms post-signal
sleep, then the deferred `client.Close()`, then the deferred `cancel()`
— and none of these four steps occurs earlier.  In particular `Close`
runs only after the wait-for-signal step returns, and the 200ms sleep
separates the signal from the return (hence from the deferred close and
cancellation). -/
theorem c5_close_after_signal (f : Flags) (e : Env)
    (h1 : e.makeHostErr = none) (h2 : e.newClientErr = none) :
    ∃ a : List Event,
      (runClient f e).1 =
        a ++ [Event.waitSignal, Event.sleepNs (200 * nsPerMillisecond),
              Event.closeClient, Event.cancelRootCtx] ∧
      Event.waitSignal ∉ a ∧
      Event.sleepNs (200 * nsPerMillisecond) ∉ a ∧
      Event.closeClient ∉ a ∧
      Event.cancelRootCtx ∉ a := by
  obtain ⟨mh, nc, hs⟩ := e
  simp only at h1 h2
  subst h1
  subst h2
  refine ⟨[Event.httpServe f.backendHTTP false, Event.makeHost true 0 f.relay,
           Event.newClient true (clientConfigOf f), Event.startAdvertising],
          rfl, ?_, ?_, ?_, ?_⟩ <;> simp

/-- Witness for C5, in the fault-free run under default flags. -/
theorem c5_witness :
    ∃ a : List Event,
      (runClient defaultFlags envOK).1 =
        a ++ [Event.waitSignal, Event.sleepNs (200 * nsPerMillisecond),
              Event.closeClient, Event.cancelRootCtx] ∧
      Event.waitSignal ∉ a ∧
      Event.sleepNs (200 * nsPerMillisecond) ∉ a ∧
      Event.closeClient ∉ a ∧
      Event.cancelRootCtx ∉ a :=
  c5_close_after_signal defaultFlags envOK rfl rfl

/-- C6: for every preference configuration and candidate-address list,
the Address Preference Selector's output is a permutation of its input
(no addresses added or dropped), and two calls on identical inputs
return the same ordered output. -/
theorem c6_selector_perm_deterministic (cfg : PreferenceConfig) (addrs : List CandidateAddr) :
    (selectAddrs cfg addrs).Perm addrs ∧
    selectAddrs cfg addrs = selectAddrs cfg addrs :=
  ⟨List.perm_insertionSort _ addrs, rfl⟩

/-- C7: closing an open session releases its resources once; a second
`Close` on the resulting session reports no error, changes nothing, and
does not release resources again. -/
theorem c7_close_idempotent (s : AdvertiseSession) (h : s.closed = false) :
    (closeSession s).2 = none ∧
    (closeSession s).1.releaseCount = s.releaseCount + 1 ∧
    closeSession (closeSession s).1 = ((closeSession s).1, none) := by
  simp [closeSession, h]

/-- Witness for C7 at a concrete open session. -/
theorem c7_witness :
    (closeSession ⟨false, 0⟩).2 = none ∧
    (closeSession ⟨false, 0⟩).1.releaseCount = 0 + 1 ∧
    closeSession (closeSession ⟨false, 0⟩).1 = ((closeSession ⟨false, 0⟩).1, none) :=
  c7_close_idempotent ⟨false, 0⟩ rfl

/-- C9: if the local HTTP backend fails to serve, the goroutine cancels
the root context (which stops the advertisement loop), but `runClient`'s
main flow is unaffected: it still waits for a termination signal and
returns no error — the process stays alive with neither the backend nor
the advertiser functioning. -/
theorem c9_http_failure_keeps_process_alive (f : Flags) (e : Env) (msg : String)
    (hs : e.httpServeErr = some msg)
    (h1 : e.makeHostErr = none) (h2 : e.newClientErr = none) :
    HTTPGoroutineStep.cancelRootCtx ∈ httpGoroutine e.httpServeErr ∧
    advertLoopRunning true = false ∧
    runClient f e = runClient f envOK ∧
    (runClient f e).2 = none ∧
    Event.waitSignal ∈ (runClient f e).1 := by
  obtain ⟨mh, nc, hsv⟩ := e
  simp only at h1 h2 hs
  subst h1
  subst h2
  subst hs
  refine ⟨?_, rfl, rfl, rfl, ?_⟩ <;> simp [httpGoroutine, runClient]

/-- Witness for C9 at a concrete port-in-use serve failure. -/
theorem c9_witness :
    HTTPGoroutineStep.cancelRootCtx ∈
      httpGoroutine (Env.httpServeErr ⟨none, none, some "bind: address already in use"⟩) ∧
    advertLoopRunning true = false ∧
    runClient defaultFlags ⟨none, none, some "bind: address already in use"⟩ =
      runClient defaultFlags envOK ∧
    (runClient defaultFlags ⟨none, none, some "bind: address already in use"⟩).2 = none ∧
    Event.waitSignal ∈
      (runClient defaultFlags ⟨none, none, some "bind: address already in use"⟩).1 :=
  c9_http_failure_keeps_process_alive defaultFlags
    ⟨none, none, some "bind: address already in use"⟩
    "bind: address already in use" rfl rfl rfl

/-- C10: the default flag values are: server URL `http://localhost:8080`,
no static bootstrap addresses, relay enabled, backend listen address
`:8081` (hence target `127.0.0.1:8081`), protocol id
`/relaydns/http/1.0`, topic `relaydns.backends`, advertise interval 3s,
prefer-QUIC and prefer-local both true, and a 3s health-fetch timeout. -/
theorem c10_defaults :
    defaultFlags.serverURL = "http://localhost:8080" ∧
    defaultFlags.bootstraps = [] ∧
    defaultFlags.relay = true ∧
    defaultFlags.backendHTTP = ":8081" ∧
    (clientConfigOf defaultFlags).TargetTCP = "127.0.0.1:8081" ∧
    defaultFlags.protocol = "/relaydns/http/1.0" ∧
    defaultFlags.topic = "relaydns.backends" ∧
    defaultFlags.advertiseEvery = 3 * nsPerSecond ∧
    defaultFlags.preferQUIC = true ∧
    defaultFlags.preferLocal = true ∧
    defaultFlags.httpTimeout = 3 * nsPerSecond := by
  refine ⟨rfl, rfl, rfl, rfl, ?_, rfl, rfl, rfl, rfl, rfl, rfl⟩
  decide

end Relaydns
